import Mathlib

/-!
Verification of the babySDCS sharded key-value service (src/cache.rs,
src/server.rs, src/main.rs).

The embedding is parametric in the external collaborators that are not
repository code:
* `seahash::hash` is an arbitrary function `hash : String → Nat`
  (`owner_for_key` only reduces it modulo the peer count);
* `serde_json::from_str::<Map<String,Value>>` is an arbitrary partial parse
  function `parseObj : String → Option (List (String × V))` (entry list of
  the decoded object, `none` when the body is not a decodable object; a
  failing body read, which the router handles identically, is folded in);
* `serde_json::to_string(&json!({k: v}))` is an arbitrary serializer
  `serPair : String → V → String`;
* the outcome of the i-th outbound HTTP attempt of a forwarded call is an
  oracle `Nat → AttemptOutcome`: both `Ok(resp)` and
  `Err(ureq::Error::Status(code, resp))` carry a status and a body and are
  handled identically by the source, so they are one constructor;
  any other `Err(e)` (timeout, connection refused, DNS failure) is
  `transportFailure`.
Stored values are opaque to the repository code (it only clones them), so
the value type is a parameter `V`.
-/

namespace BabySDCS

/-- Outcome of one outbound RPC attempt, as the retry loops in
src/server.rs observe it. -/
inductive AttemptOutcome where
  | response (status : Nat) (body : String)
  | transportFailure
deriving DecidableEq, Repr

/-- The shared body of the three identical retry loops
(`rpc_get_with_retry`, `rpc_delete_with_retry`, `rpc_post_with_retry`,
src/server.rs lines 7-119). The source loops `while i < attempts` reading
attempt `i`; here the remaining attempt count `attempts - i` is the
recursion fuel. A response with status ≥ 500 or a transport failure is
retried; any other response is returned immediately; running out of
attempts yields `Err(())`. -/
def rpcCallFrom (outcome : Nat → AttemptOutcome) (i : Nat) :
    Nat → Except Unit (Nat × String)
  | 0 => Except.error ()
  | remaining + 1 =>
    match outcome i with
    | AttemptOutcome.response status body =>
      if 500 ≤ status then rpcCallFrom outcome (i + 1) remaining
      else Except.ok (status, body)
    | AttemptOutcome.transportFailure => rpcCallFrom outcome (i + 1) remaining

/-- src/server.rs lines 7-43: GET with retries. -/
def rpc_get_with_retry (outcome : Nat → AttemptOutcome) (attempts : Nat) :
    Except Unit (Nat × String) :=
  rpcCallFrom outcome 0 attempts

/-- src/server.rs lines 45-79: DELETE with retries (identical loop). -/
def rpc_delete_with_retry (outcome : Nat → AttemptOutcome) (attempts : Nat) :
    Except Unit (Nat × String) :=
  rpcCallFrom outcome 0 attempts

/-- src/server.rs lines 81-119: POST with retries (identical loop; the
POST body only affects the outbound request, i.e. the oracle). -/
def rpc_post_with_retry (outcome : Nat → AttemptOutcome) (attempts : Nat) :
    Except Unit (Nat × String) :=
  rpcCallFrom outcome 0 attempts

/-- An attempt outcome the retry loops treat as transient (retry):
a transport failure or a response with status ≥ 500. -/
def isTransient : AttemptOutcome → Bool
  | AttemptOutcome.response status _ => decide (500 ≤ status)
  | AttemptOutcome.transportFailure => true

/-- src/server.rs lines 131-134: owner index = hash of the key modulo the
peer count. `hash` stands for `seahash::hash(key.as_bytes())` (the u64 →
usize cast does not change the residue). -/
def owner_for_key (hash : String → Nat) (key : String) (peers : List String) : Nat :=
  hash key % peers.length

/-- src/cache.rs: the mutex-guarded `HashMap<String, Value>`, embedded as
its pointwise contents. -/
def Cache (V : Type) := String → Option V

/-- src/cache.rs lines 13-15: empty cache. -/
def Cache.new {V : Type} : Cache V := fun _ => none

/-- src/cache.rs lines 18-21: insert or overwrite. -/
def Cache.set {V : Type} (c : Cache V) (key : String) (value : V) : Cache V :=
  fun k => if k = key then some value else c k

/-- src/cache.rs lines 24-27: lookup. -/
def Cache.get {V : Type} (c : Cache V) (key : String) : Option V :=
  c key

/-- src/cache.rs lines 30-33: remove, returning the updated cache and
1 if something was removed, 0 otherwise. -/
def Cache.delete {V : Type} (c : Cache V) (key : String) : Cache V × Nat :=
  match c key with
  | some _ => (fun k => if k = key then none else c k, 1)
  | none => (c, 0)

/-- An HTTP-level response: status code and body.
`tiny_http::Response::empty(code)` has body `""`. -/
structure Response where
  status : Nat
  body : String
deriving DecidableEq, Repr

/-- A record of one forwarded (inter-node) call issued while handling a
request, so that theorems can state that no peer was contacted. -/
inductive RemoteCall where
  | get (url : String)
  | post (url : String) (body : String)
  | del (url : String)
deriving DecidableEq, Repr

/-- `str::trim_start_matches('/')`: drop every leading `'/'`. -/
def trimStartMatches (c : Char) (s : String) : String :=
  String.mk (s.data.dropWhile (fun a => a = c))

/-- src/server.rs line 202: the fixed health payload. -/
def healthBody : String := "\x7b\"status\": \"ok\"\x7d\n"

/-- The external collaborators a request handler consults (see the header
comment): the hash, the JSON object parser, the single-pair serializer,
and the per-attempt outcome oracles of the (at most one) forwarded call
of each verb. -/
structure Ext (V : Type) where
  hash : String → Nat
  parseObj : String → Option (List (String × V))
  serPair : String → V → String
  getOutcome : Nat → AttemptOutcome
  postOutcome : Nat → AttemptOutcome
  deleteOutcome : Nat → AttemptOutcome

/-- `let owner_idx = owner_for_key(key, &peers); let owner = &peers[owner_idx]`
as one total function (`""` default; the index is in range whenever `peers`
is non-empty, which the configuration guarantees). -/
def ownerOf {V : Type} (ext : Ext V) (peers : List String) (key : String) : String :=
  peers.getD (owner_for_key ext.hash key peers) ""

/-- src/server.rs lines 147-284: handling of one inbound request (the body
of the per-request thread in `run_server`). Returns the response sent to
the external caller, the store contents afterwards, and the list of
forwarded calls issued. -/
def handleRequest {V : Type} (ext : Ext V) (selfAddr : String)
    (peers : List String) (method url reqBody : String) (store : Cache V) :
    Response × Cache V × List RemoteCall :=
  if method = "POST" ∧ url = "/" then
    match ext.parseObj reqBody with
    | some entries =>
      match entries with
      | [(k, v)] =>
        if ownerOf ext peers k = selfAddr then
          (⟨200, ext.serPair k v⟩, Cache.set store k v, [])
        else
          match rpc_post_with_retry ext.postOutcome 6 with
          | Except.ok (status, text) =>
            (⟨status, text⟩, store,
              [RemoteCall.post ("http://" ++ ownerOf ext peers k ++ "/") reqBody])
          | Except.error _ =>
            (⟨502, ""⟩, store,
              [RemoteCall.post ("http://" ++ ownerOf ext peers k ++ "/") reqBody])
      | _ => (⟨400, ""⟩, store, [])
    | none => (⟨400, ""⟩, store, [])
  else if method = "GET" then
    if url = "/health" then
      (⟨200, healthBody⟩, store, [])
    else
      if trimStartMatches '/' url = "" then (⟨400, ""⟩, store, [])
      else
        if ownerOf ext peers (trimStartMatches '/' url) = selfAddr then
          match Cache.get store (trimStartMatches '/' url) with
          | some v =>
            (⟨200, ext.serPair (trimStartMatches '/' url) v⟩, store, [])
          | none => (⟨404, ""⟩, store, [])
        else
          match rpc_get_with_retry ext.getOutcome 6 with
          | Except.ok (status, text) =>
            if status = 200 then
              (⟨200, text⟩, store,
                [RemoteCall.get ("http://" ++ ownerOf ext peers (trimStartMatches '/' url)
                  ++ "/" ++ trimStartMatches '/' url)])
            else
              (⟨404, ""⟩, store,
                [RemoteCall.get ("http://" ++ ownerOf ext peers (trimStartMatches '/' url)
                  ++ "/" ++ trimStartMatches '/' url)])
          | Except.error _ =>
            (⟨404, ""⟩, store,
              [RemoteCall.get ("http://" ++ ownerOf ext peers (trimStartMatches '/' url)
                ++ "/" ++ trimStartMatches '/' url)])
  else if method = "DELETE" then
    if trimStartMatches '/' url = "" then (⟨400, ""⟩, store, [])
    else
      if ownerOf ext peers (trimStartMatches '/' url) = selfAddr then
        (⟨200, toString (Cache.delete store (trimStartMatches '/' url)).2⟩,
          (Cache.delete store (trimStartMatches '/' url)).1, [])
      else
        match rpc_delete_with_retry ext.deleteOutcome 6 with
        | Except.ok (status, text) =>
          (⟨status, text⟩, store,
            [RemoteCall.del ("http://" ++ ownerOf ext peers (trimStartMatches '/' url)
              ++ "/" ++ trimStartMatches '/' url)])
        | Except.error _ =>
          (⟨502, ""⟩, store,
            [RemoteCall.del ("http://" ++ ownerOf ext peers (trimStartMatches '/' url)
              ++ "/" ++ trimStartMatches '/' url)])
  else
    (⟨405, ""⟩, store, [])

/-- A concrete oracle bundle used for sanity checks: two peers, every key
hashed to index 1. -/
def sanityExt : Ext Nat :=
  ⟨fun _ => 1, fun _ => some [("k", 7)],
    fun k v => "\x7b\"" ++ k ++ "\":" ++ toString v ++ "\x7d",
    fun _ => AttemptOutcome.response 404 "nope",
    fun _ => AttemptOutcome.transportFailure,
    fun _ => AttemptOutcome.transportFailure⟩

/-- An outcome oracle whose first attempt fails at the transport level and
whose second attempt is a definitive 200. -/
def witOutcome : Nat → AttemptOutcome :=
  fun n => if n = 0 then AttemptOutcome.transportFailure
           else AttemptOutcome.response 200 "ok"

/-- Oracles for a two-node cluster where every key belongs to peer 1 and
every forwarded call gets a definitive answer: GET is answered 400 "oops",
POST 201 "made", DELETE 404 "gone". -/
def witExtRelay : Ext Nat :=
  ⟨fun _ => 1, fun _ => some [("k", 7)], fun _ _ => "",
    fun _ => AttemptOutcome.response 400 "oops",
    fun _ => AttemptOutcome.response 201 "made",
    fun _ => AttemptOutcome.response 404 "gone"⟩

/-- Oracles whose parse always fails (body not a decodable object). -/
def noParseExt : Ext Nat :=
  ⟨fun _ => 1, fun _ => none, fun _ _ => "",
    fun _ => AttemptOutcome.transportFailure,
    fun _ => AttemptOutcome.transportFailure,
    fun _ => AttemptOutcome.transportFailure⟩

/-- Oracles whose parse yields a two-pair object. -/
def twoKeyExt : Ext Nat :=
  ⟨fun _ => 1, fun _ => some [("a", 1), ("b", 2)], fun _ _ => "",
    fun _ => AttemptOutcome.transportFailure,
    fun _ => AttemptOutcome.transportFailure,
    fun _ => AttemptOutcome.transportFailure⟩

/-- Oracles for a single-node cluster storing the key "health": the parse
yields `[("health", 1)]` and the serializer is the compact JSON form. -/
def cexExtHealth : Ext Nat :=
  ⟨fun _ => 0, fun _ => some [("health", 1)],
    fun k v => "\x7b\"" ++ k ++ "\":" ++ toString v ++ "\x7d",
    fun _ => AttemptOutcome.transportFailure,
    fun _ => AttemptOutcome.transportFailure,
    fun _ => AttemptOutcome.transportFailure⟩

/-! ## Helper lemmas about the retry loop -/

/-- If attempts `i, …, i+d-1` are transient and attempt `i+d` is a
definitive response (status < 500) within the remaining budget, the loop
returns that response's status and body. -/
theorem rpcCallFrom_ok_of_first_definitive (outcome : Nat → AttemptOutcome) :
    ∀ (d i remaining : Nat), d < remaining →
      (∀ m, m < d → isTransient (outcome (i + m)) = true) →
      ∀ s b, outcome (i + d) = AttemptOutcome.response s b → s < 500 →
      rpcCallFrom outcome i remaining = Except.ok (s, b) := by
  intro d
  induction d with
  | zero =>
    intro i remaining hd htr s b hout hs
    obtain ⟨r, rfl⟩ : ∃ r, remaining = r + 1 := ⟨remaining - 1, by omega⟩
    rw [Nat.add_zero] at hout
    simp only [rpcCallFrom, hout]
    rw [if_neg (by omega)]
  | succ d ih =>
    intro i remaining hd htr s b hout hs
    obtain ⟨r, rfl⟩ : ∃ r, remaining = r + 1 := ⟨remaining - 1, by omega⟩
    have h0 : isTransient (outcome i) = true := by
      have h1 := htr 0 (Nat.succ_pos d)
      rwa [Nat.add_zero] at h1
    have hrec : rpcCallFrom outcome (i + 1) r = Except.ok (s, b) := by
      refine ih (i + 1) r (by omega) (fun m hm => ?_) s b ?_ hs
      · have h2 := htr (m + 1) (by omega)
        rwa [show i + (m + 1) = i + 1 + m by omega] at h2
      · rwa [show i + 1 + d = i + (d + 1) by omega]
    cases hoc : outcome i with
    | response s0 b0 =>
      have hs0 : 500 ≤ s0 := by
        rw [hoc] at h0
        simpa [isTransient] using h0
      simp only [rpcCallFrom, hoc]
      rw [if_pos hs0]
      exact hrec
    | transportFailure =>
      simp only [rpcCallFrom, hoc]
      exact hrec

/-- The loop reports exhaustion exactly when every attempt within the
remaining budget is transient. -/
theorem rpcCallFrom_error_iff (outcome : Nat → AttemptOutcome) :
    ∀ (remaining i : Nat),
      rpcCallFrom outcome i remaining = Except.error () ↔
        ∀ m, m < remaining → isTransient (outcome (i + m)) = true := by
  intro remaining
  induction remaining with
  | zero =>
    intro i
    simp [rpcCallFrom]
  | succ r ih =>
    intro i
    cases hoc : outcome i with
    | response s0 b0 =>
      by_cases hs0 : 500 ≤ s0
      · simp only [rpcCallFrom, hoc, if_pos hs0]
        rw [ih (i + 1)]
        constructor
        · intro h m hm
          cases m with
          | zero =>
            rw [Nat.add_zero, hoc]
            simp [isTransient, hs0]
          | succ m =>
            have h2 := h m (by omega)
            rwa [show i + 1 + m = i + (m + 1) by omega] at h2
        · intro h m hm
          have h2 := h (m + 1) (by omega)
          rwa [show i + (m + 1) = i + 1 + m by omega] at h2
      · simp only [rpcCallFrom, hoc, if_neg hs0]
        constructor
        · intro h
          exact Except.noConfusion h
        · intro h
          exfalso
          have h2 := h 0 (by omega)
          rw [Nat.add_zero, hoc] at h2
          simp [isTransient, hs0] at h2
    | transportFailure =>
      simp only [rpcCallFrom, hoc]
      rw [ih (i + 1)]
      constructor
      · intro h m hm
        cases m with
        | zero =>
          rw [Nat.add_zero, hoc]
          simp [isTransient]
        | succ m =>
          have h2 := h m (by omega)
          rwa [show i + 1 + m = i + (m + 1) by omega] at h2
      · intro h m hm
        have h2 := h (m + 1) (by omega)
        rwa [show i + (m + 1) = i + 1 + m by omega] at h2

/-- Deleting one key does not change the contents at a different key. -/
theorem Cache.get_delete_ne {V : Type} (c : Cache V) (k k2 : String) (h : k ≠ k2) :
    Cache.get (Cache.delete c k2).1 k = Cache.get c k := by
  cases hsk : c k2 with
  | some w => simp [Cache.delete, hsk, Cache.get, h]
  | none => simp [Cache.delete, hsk, Cache.get]

/-! ## Helper lemmas reducing `handleRequest` to its branches -/

theorem handleRequest_health_eq {V : Type} (ext : Ext V) (selfAddr : String)
    (peers : List String) (reqBody : String) (store : Cache V) :
    handleRequest ext selfAddr peers "GET" "/health" reqBody store
      = (⟨200, healthBody⟩, store, []) := by
  unfold handleRequest
  rw [if_neg (by simp), if_pos rfl, if_pos rfl]

theorem handleRequest_get_owned {V : Type} (ext : Ext V) (selfAddr : String)
    (peers : List String) (url reqBody : String) (store : Cache V)
    (hurl : url ≠ "/health") (hkey : trimStartMatches '/' url ≠ "")
    (hown : ownerOf ext peers (trimStartMatches '/' url) = selfAddr) :
    handleRequest ext selfAddr peers "GET" url reqBody store
      = match Cache.get store (trimStartMatches '/' url) with
        | some v => (⟨200, ext.serPair (trimStartMatches '/' url) v⟩, store, [])
        | none => (⟨404, ""⟩, store, []) := by
  unfold handleRequest
  rw [if_neg (by simp), if_pos rfl, if_neg hurl, if_neg hkey, if_pos hown]

theorem handleRequest_get_remote {V : Type} (ext : Ext V) (selfAddr : String)
    (peers : List String) (url reqBody : String) (store : Cache V)
    (hurl : url ≠ "/health") (hkey : trimStartMatches '/' url ≠ "")
    (hrem : ownerOf ext peers (trimStartMatches '/' url) ≠ selfAddr) :
    handleRequest ext selfAddr peers "GET" url reqBody store
      = match rpc_get_with_retry ext.getOutcome 6 with
        | Except.ok (status, text) =>
          if status = 200 then
            (⟨200, text⟩, store,
              [RemoteCall.get ("http://" ++ ownerOf ext peers (trimStartMatches '/' url)
                ++ "/" ++ trimStartMatches '/' url)])
          else
            (⟨404, ""⟩, store,
              [RemoteCall.get ("http://" ++ ownerOf ext peers (trimStartMatches '/' url)
                ++ "/" ++ trimStartMatches '/' url)])
        | Except.error _ =>
          (⟨404, ""⟩, store,
            [RemoteCall.get ("http://" ++ ownerOf ext peers (trimStartMatches '/' url)
              ++ "/" ++ trimStartMatches '/' url)]) := by
  unfold handleRequest
  rw [if_neg (by simp), if_pos rfl, if_neg hurl, if_neg hkey, if_neg hrem]

theorem handleRequest_post_owned {V : Type} (ext : Ext V) (selfAddr : String)
    (peers : List String) (reqBody : String) (store : Cache V) (k : String) (v : V)
    (hparse : ext.parseObj reqBody = some [(k, v)])
    (hown : ownerOf ext peers k = selfAddr) :
    handleRequest ext selfAddr peers "POST" "/" reqBody store
      = (⟨200, ext.serPair k v⟩, Cache.set store k v, []) := by
  unfold handleRequest
  rw [if_pos ⟨rfl, rfl⟩, hparse]
  simp only [if_pos hown]

theorem handleRequest_post_remote {V : Type} (ext : Ext V) (selfAddr : String)
    (peers : List String) (reqBody : String) (store : Cache V) (k : String) (v : V)
    (hparse : ext.parseObj reqBody = some [(k, v)])
    (hrem : ownerOf ext peers k ≠ selfAddr) :
    handleRequest ext selfAddr peers "POST" "/" reqBody store
      = match rpc_post_with_retry ext.postOutcome 6 with
        | Except.ok (status, text) =>
          (⟨status, text⟩, store,
            [RemoteCall.post ("http://" ++ ownerOf ext peers k ++ "/") reqBody])
        | Except.error _ =>
          (⟨502, ""⟩, store,
            [RemoteCall.post ("http://" ++ ownerOf ext peers k ++ "/") reqBody]) := by
  unfold handleRequest
  rw [if_pos ⟨rfl, rfl⟩, hparse]
  simp only [if_neg hrem]

theorem handleRequest_post_badbody {V : Type} (ext : Ext V) (selfAddr : String)
    (peers : List String) (reqBody : String) (store : Cache V)
    (h : ext.parseObj reqBody = none
        ∨ ∃ entries, ext.parseObj reqBody = some entries ∧ entries.length ≠ 1) :
    handleRequest ext selfAddr peers "POST" "/" reqBody store
      = (⟨400, ""⟩, store, []) := by
  unfold handleRequest
  rw [if_pos ⟨rfl, rfl⟩]
  rcases h with h | ⟨entries, hparse, hlen⟩
  · rw [h]
  · rw [hparse]
    match entries, hlen with
    | [], _ => rfl
    | [(k, v)], hlen => exact absurd rfl hlen
    | (k1, v1) :: (k2, v2) :: t, _ => rfl

theorem handleRequest_delete_owned {V : Type} (ext : Ext V) (selfAddr : String)
    (peers : List String) (url reqBody : String) (store : Cache V)
    (hkey : trimStartMatches '/' url ≠ "")
    (hown : ownerOf ext peers (trimStartMatches '/' url) = selfAddr) :
    handleRequest ext selfAddr peers "DELETE" url reqBody store
      = (⟨200, toString (Cache.delete store (trimStartMatches '/' url)).2⟩,
          (Cache.delete store (trimStartMatches '/' url)).1, []) := by
  unfold handleRequest
  rw [if_neg (by simp), if_neg (by simp), if_pos rfl, if_neg hkey, if_pos hown]

theorem handleRequest_delete_remote {V : Type} (ext : Ext V) (selfAddr : String)
    (peers : List String) (url reqBody : String) (store : Cache V)
    (hkey : trimStartMatches '/' url ≠ "")
    (hrem : ownerOf ext peers (trimStartMatches '/' url) ≠ selfAddr) :
    handleRequest ext selfAddr peers "DELETE" url reqBody store
      = match rpc_delete_with_retry ext.deleteOutcome 6 with
        | Except.ok (status, text) =>
          (⟨status, text⟩, store,
            [RemoteCall.del ("http://" ++ ownerOf ext peers (trimStartMatches '/' url)
              ++ "/" ++ trimStartMatches '/' url)])
        | Except.error _ =>
          (⟨502, ""⟩, store,
            [RemoteCall.del ("http://" ++ ownerOf ext peers (trimStartMatches '/' url)
              ++ "/" ++ trimStartMatches '/' url)]) := by
  unfold handleRequest
  rw [if_neg (by simp), if_neg (by simp), if_pos rfl, if_neg hkey, if_neg hrem]

example : trimStartMatches '/' "/abc" = "abc" := by decide
example : trimStartMatches '/' "//health" = "health" := by decide
example : sanityExt.serPair "k" 7 = "\x7b\"k\":7\x7d" := by decide
example :
    rpc_get_with_retry sanityExt.getOutcome 6 = Except.ok (404, "nope") := rfl
example :
    rpc_post_with_retry sanityExt.postOutcome 6 = Except.error () := rfl
example :
    (handleRequest sanityExt "a" ["a", "b"] "GET" "/k" "" (Cache.new : Cache Nat)).1
      = ⟨404, ""⟩ := by decide
example :
    (handleRequest sanityExt "a" ["a", "b"] "POST" "/" "" (Cache.new : Cache Nat)).1
      = ⟨502, ""⟩ := by decide
example :
    (handleRequest sanityExt "b" ["a", "b"] "POST" "/" "" (Cache.new : Cache Nat)).1
      = ⟨200, "\x7b\"k\":7\x7d"⟩ := by decide
example :
    (handleRequest sanityExt "b" ["a", "b"] "GET" "/health" "" (Cache.new : Cache Nat)).1
      = ⟨200, healthBody⟩ := by decide
example :
    (handleRequest sanityExt "b" ["a", "b"] "DELETE" "/k" ""
      (Cache.set (Cache.new : Cache Nat) "k" 7)).1 = ⟨200, "1"⟩ := by decide

/-! ## Claim theorems -/

/-- C1: for every hash function, every string key and every non-empty peer
list, `owner_for_key` returns an index strictly below the length of the
peer list, and it is deterministic: two calls with the same key and peer
list return the same index. -/
theorem owner_for_key_total_deterministic (hash : String → Nat) (key : String)
    (peers : List String) (h : peers ≠ []) :
    owner_for_key hash key peers < peers.length
      ∧ owner_for_key hash key peers = owner_for_key hash key peers :=
  ⟨Nat.mod_lt _ (List.length_pos.mpr h), rfl⟩

/-- Witness for C1 at the two-element peer list and the length hash. -/
theorem owner_for_key_total_deterministic_witness :
    (["a", "b"] : List String) ≠ []
      ∧ owner_for_key String.length "xy" ["a", "b"] < (["a", "b"] : List String).length :=
  ⟨by decide,
    (owner_for_key_total_deterministic String.length "xy" ["a", "b"] (by decide)).1⟩

/-- C2: a forwarded GET answers 200 with the remote body exactly when the
remote call yields a definitive 200; a definitive non-200 and exhaustion
both yield 404 with an empty body, and the external status is never 502. -/
theorem get_remote_read_policy {V : Type} (ext : Ext V) (selfAddr : String)
    (peers : List String) (url reqBody : String) (store : Cache V)
    (hurl : url ≠ "/health") (hkey : trimStartMatches '/' url ≠ "")
    (hrem : ownerOf ext peers (trimStartMatches '/' url) ≠ selfAddr) :
    (∀ text, rpc_get_with_retry ext.getOutcome 6 = Except.ok (200, text) →
      (handleRequest ext selfAddr peers "GET" url reqBody store).1 = ⟨200, text⟩)
    ∧ (∀ s text, rpc_get_with_retry ext.getOutcome 6 = Except.ok (s, text) → s ≠ 200 →
      (handleRequest ext selfAddr peers "GET" url reqBody store).1 = ⟨404, ""⟩)
    ∧ (rpc_get_with_retry ext.getOutcome 6 = Except.error () →
      (handleRequest ext selfAddr peers "GET" url reqBody store).1 = ⟨404, ""⟩)
    ∧ (handleRequest ext selfAddr peers "GET" url reqBody store).1.status ≠ 502 := by
  have hb := handleRequest_get_remote ext selfAddr peers url reqBody store hurl hkey hrem
  refine ⟨?_, ?_, ?_, ?_⟩
  · intro text hr
    rw [hb, hr]
    simp
  · intro s text hr hs
    rw [hb, hr]
    simp only [if_neg hs]
  · intro hr
    rw [hb, hr]
  · rw [hb]
    cases hr : rpc_get_with_retry ext.getOutcome 6 with
    | ok p =>
      obtain ⟨s, t⟩ := p
      by_cases h200 : s = 200
      · simp [h200]
      · simp [h200]
    | error e => simp

/-- Witness for C2: the remote owner answers a definitive 404, and the
router answers 404. -/
theorem get_remote_read_policy_witness :
    (handleRequest sanityExt "a" ["a", "b"] "GET" "/k" "" (Cache.new : Cache Nat)).1
      = ⟨404, ""⟩ :=
  (get_remote_read_policy sanityExt "a" ["a", "b"] "/k" "" (Cache.new : Cache Nat)
    (by decide) (by decide) (by decide)).2.1 404 "nope" rfl (by decide)

/-- C3: a forwarded POST or DELETE whose remote call exhausts all attempts
without a definitive answer is surfaced to the external caller as 502. -/
theorem write_delete_exhaustion_502 {V : Type} (ext : Ext V) (selfAddr : String)
    (peers : List String) (store : Cache V) :
    (∀ reqBody k v, ext.parseObj reqBody = some [(k, v)] →
      ownerOf ext peers k ≠ selfAddr →
      rpc_post_with_retry ext.postOutcome 6 = Except.error () →
      (handleRequest ext selfAddr peers "POST" "/" reqBody store).1 = ⟨502, ""⟩)
    ∧ (∀ url reqBody, trimStartMatches '/' url ≠ "" →
      ownerOf ext peers (trimStartMatches '/' url) ≠ selfAddr →
      rpc_delete_with_retry ext.deleteOutcome 6 = Except.error () →
      (handleRequest ext selfAddr peers "DELETE" url reqBody store).1 = ⟨502, ""⟩) := by
  constructor
  · intro reqBody k v hparse hrem hr
    rw [handleRequest_post_remote ext selfAddr peers reqBody store k v hparse hrem, hr]
  · intro url reqBody hkey hrem hr
    rw [handleRequest_delete_remote ext selfAddr peers url reqBody store hkey hrem, hr]

/-- Witness for C3: every attempt fails at the transport level, so both a
forwarded POST and a forwarded DELETE answer 502. -/
theorem write_delete_exhaustion_502_witness :
    (handleRequest sanityExt "a" ["a", "b"] "POST" "/" "" (Cache.new : Cache Nat)).1
        = ⟨502, ""⟩
      ∧ (handleRequest sanityExt "a" ["a", "b"] "DELETE" "/k" "" (Cache.new : Cache Nat)).1
        = ⟨502, ""⟩ :=
  ⟨(write_delete_exhaustion_502 sanityExt "a" ["a", "b"] (Cache.new : Cache Nat)).1
      "" "k" 7 rfl (by decide) rfl,
    (write_delete_exhaustion_502 sanityExt "a" ["a", "b"] (Cache.new : Cache Nat)).2
      "/k" "" (by decide) (by decide) rfl⟩

/-- C4: each retry function returns the status and body of the first
attempt whose outcome is a response with status below 500 (later attempt
outcomes are irrelevant), and it reports exhaustion exactly when every
attempt within the budget is transient (transport failure or status
≥ 500). -/
theorem rpc_retry_policy (outcome : Nat → AttemptOutcome) (attempts : Nat) :
    (∀ j s b, j < attempts → (∀ m, m < j → isTransient (outcome m) = true) →
      outcome j = AttemptOutcome.response s b → s < 500 →
      rpc_get_with_retry outcome attempts = Except.ok (s, b)
        ∧ rpc_post_with_retry outcome attempts = Except.ok (s, b)
        ∧ rpc_delete_with_retry outcome attempts = Except.ok (s, b))
    ∧ (rpc_get_with_retry outcome attempts = Except.error () ↔
        ∀ j, j < attempts → isTransient (outcome j) = true)
    ∧ (rpc_post_with_retry outcome attempts = Except.error () ↔
        ∀ j, j < attempts → isTransient (outcome j) = true)
    ∧ (rpc_delete_with_retry outcome attempts = Except.error () ↔
        ∀ j, j < attempts → isTransient (outcome j) = true) := by
  have hok : ∀ j s b, j < attempts → (∀ m, m < j → isTransient (outcome m) = true) →
      outcome j = AttemptOutcome.response s b → s < 500 →
      rpcCallFrom outcome 0 attempts = Except.ok (s, b) := by
    intro j s b hj htr hout hs
    refine rpcCallFrom_ok_of_first_definitive outcome j 0 attempts hj ?_ s b ?_ hs
    · intro m hm
      rw [Nat.zero_add]
      exact htr m hm
    · rw [Nat.zero_add]
      exact hout
  have herr : rpcCallFrom outcome 0 attempts = Except.error () ↔
      ∀ j, j < attempts → isTransient (outcome j) = true := by
    rw [rpcCallFrom_error_iff]
    constructor
    · intro h j hj
      have h2 := h j hj
      rwa [Nat.zero_add] at h2
    · intro h j hj
      rw [Nat.zero_add]
      exact h j hj
  exact ⟨fun j s b hj htr hout hs =>
      ⟨hok j s b hj htr hout hs, hok j s b hj htr hout hs, hok j s b hj htr hout hs⟩,
    herr, herr, herr⟩

/-- Witness for C4: a transport failure on attempt 0 followed by a
definitive 200 on attempt 1 makes all three functions return the second
attempt's response. -/
theorem rpc_retry_policy_witness :
    rpc_get_with_retry witOutcome 6 = Except.ok (200, "ok")
      ∧ rpc_post_with_retry witOutcome 6 = Except.ok (200, "ok")
      ∧ rpc_delete_with_retry witOutcome 6 = Except.ok (200, "ok") :=
  (rpc_retry_policy witOutcome 6).1 1 200 "ok" (by decide)
    (fun m hm => by
      have hm0 : m = 0 := by omega
      subst hm0
      decide)
    (by decide) (by decide)

/-- C5 counterexample: the remote owner answers a forwarded GET with the
definitive response 400 "oops", but the router answers 404 with an empty
body instead of relaying status and body unchanged. -/
theorem relay_definitive_cex :
    rpc_get_with_retry witExtRelay.getOutcome 6 = Except.ok (400, "oops")
      ∧ (handleRequest witExtRelay "a" ["a", "b"] "GET" "/k" ""
          (Cache.new : Cache Nat)).1 ≠ ⟨400, "oops"⟩
      ∧ (handleRequest witExtRelay "a" ["a", "b"] "GET" "/k" ""
          (Cache.new : Cache Nat)).1 = ⟨404, ""⟩ :=
  ⟨rfl, by decide, by decide⟩

/-- C5 (amended): a forwarded POST or DELETE relays a definitive remote
response to the external caller unchanged (same status, same body); a
forwarded GET relays a definitive 200 unchanged, but maps every other
definitive status to 404 with an empty body. -/
theorem relay_definitive {V : Type} (ext : Ext V) (selfAddr : String)
    (peers : List String) (store : Cache V) :
    (∀ reqBody k v s text, ext.parseObj reqBody = some [(k, v)] →
      ownerOf ext peers k ≠ selfAddr →
      rpc_post_with_retry ext.postOutcome 6 = Except.ok (s, text) →
      (handleRequest ext selfAddr peers "POST" "/" reqBody store).1 = ⟨s, text⟩)
    ∧ (∀ url reqBody s text, trimStartMatches '/' url ≠ "" →
      ownerOf ext peers (trimStartMatches '/' url) ≠ selfAddr →
      rpc_delete_with_retry ext.deleteOutcome 6 = Except.ok (s, text) →
      (handleRequest ext selfAddr peers "DELETE" url reqBody store).1 = ⟨s, text⟩)
    ∧ (∀ url reqBody text, url ≠ "/health" → trimStartMatches '/' url ≠ "" →
      ownerOf ext peers (trimStartMatches '/' url) ≠ selfAddr →
      rpc_get_with_retry ext.getOutcome 6 = Except.ok (200, text) →
      (handleRequest ext selfAddr peers "GET" url reqBody store).1 = ⟨200, text⟩)
    ∧ (∀ url reqBody s text, url ≠ "/health" → trimStartMatches '/' url ≠ "" →
      ownerOf ext peers (trimStartMatches '/' url) ≠ selfAddr →
      rpc_get_with_retry ext.getOutcome 6 = Except.ok (s, text) → s ≠ 200 →
      (handleRequest ext selfAddr peers "GET" url reqBody store).1 = ⟨404, ""⟩) := by
  refine ⟨?_, ?_, ?_, ?_⟩
  · intro reqBody k v s text hparse hrem hr
    rw [handleRequest_post_remote ext selfAddr peers reqBody store k v hparse hrem, hr]
  · intro url reqBody s text hkey hrem hr
    rw [handleRequest_delete_remote ext selfAddr peers url reqBody store hkey hrem, hr]
  · intro url reqBody text hurl hkey hrem hr
    rw [handleRequest_get_remote ext selfAddr peers url reqBody store hurl hkey hrem, hr]
    simp
  · intro url reqBody s text hurl hkey hrem hr hs
    rw [handleRequest_get_remote ext selfAddr peers url reqBody store hurl hkey hrem, hr]
    simp only [if_neg hs]

/-- Witness for the amended C5: a forwarded POST answered 201 "made" and a
forwarded DELETE answered 404 "gone" are relayed unchanged. -/
theorem relay_definitive_witness :
    (handleRequest witExtRelay "a" ["a", "b"] "POST" "/" "" (Cache.new : Cache Nat)).1
        = ⟨201, "made"⟩
      ∧ (handleRequest witExtRelay "a" ["a", "b"] "DELETE" "/k" ""
          (Cache.new : Cache Nat)).1 = ⟨404, "gone"⟩ :=
  ⟨(relay_definitive witExtRelay "a" ["a", "b"] (Cache.new : Cache Nat)).1
      "" "k" 7 201 "made" rfl (by decide) rfl,
    (relay_definitive witExtRelay "a" ["a", "b"] (Cache.new : Cache Nat)).2.1
      "/k" "" 404 "gone" (by decide) (by decide) rfl⟩

/-- C6: a POST / whose body does not decode to an object, or decodes to an
object without exactly one key-value pair, is answered 400 with the store
unchanged and no forwarded call; the result is the same constant for every
hash function and every outcome oracle, so neither ownership resolution
nor forwarding affects it. -/
theorem post_bad_body_400 {V : Type} (ext : Ext V) (selfAddr : String)
    (peers : List String) (reqBody : String) (store : Cache V)
    (h : ext.parseObj reqBody = none
        ∨ ∃ entries, ext.parseObj reqBody = some entries ∧ entries.length ≠ 1) :
    handleRequest ext selfAddr peers "POST" "/" reqBody store = (⟨400, ""⟩, store, []) :=
  handleRequest_post_badbody ext selfAddr peers reqBody store h

/-- Witness for C6: an undecodable body and a two-pair body each answer
400 and leave the store and the call trace empty. -/
theorem post_bad_body_400_witness :
    handleRequest noParseExt "a" ["a", "b"] "POST" "/" "notjson" (Cache.new : Cache Nat)
        = (⟨400, ""⟩, (Cache.new : Cache Nat), [])
      ∧ handleRequest twoKeyExt "a" ["a", "b"] "POST" "/" "\x7b\"a\":1,\"b\":2\x7d"
          (Cache.new : Cache Nat) = (⟨400, ""⟩, (Cache.new : Cache Nat), []) :=
  ⟨post_bad_body_400 noParseExt "a" ["a", "b"] "notjson" (Cache.new : Cache Nat)
      (Or.inl rfl),
    post_bad_body_400 twoKeyExt "a" ["a", "b"] "\x7b\"a\":1,\"b\":2\x7d"
      (Cache.new : Cache Nat)
      (Or.inr ⟨[("a", 1), ("b", 2)], rfl, by decide⟩)⟩

/-- C7 counterexample: the key "health". On a single-node cluster an owned
POST / stores `("health", 1)` and answers 200, but the follow-up
GET /health answers the fixed health payload, which differs from the
serialized pair, so the claim's universally quantified HTTP-level clause
fails at this key. -/
theorem set_then_get_cex :
    (handleRequest cexExtHealth "a" ["a"] "POST" "/" "\x7b\"health\":1\x7d"
        (Cache.new : Cache Nat)).1 = ⟨200, "\x7b\"health\":1\x7d"⟩
      ∧ (handleRequest cexExtHealth "a" ["a"] "POST" "/" "\x7b\"health\":1\x7d"
          (Cache.new : Cache Nat)).2.1 "health" = some 1
      ∧ (handleRequest cexExtHealth "a" ["a"] "GET" "/health" ""
          (handleRequest cexExtHealth "a" ["a"] "POST" "/" "\x7b\"health\":1\x7d"
            (Cache.new : Cache Nat)).2.1).1 = ⟨200, healthBody⟩
      ∧ (⟨200, healthBody⟩ : Response) ≠ ⟨200, "\x7b\"health\":1\x7d"⟩ :=
  ⟨by decide, by decide, by decide, by decide⟩

/-- C7 (amended): `Cache.get` after `Cache.set` returns the written value;
and for every non-empty key other than "health" that does not begin with a
slash, an owned POST / storing the pair answers 200 echoing it, and a
subsequent GET /{key} on the owning node answers 200 with the serialized
pair. -/
theorem set_then_get {V : Type} (ext : Ext V) (selfAddr : String)
    (peers : List String) (k reqBody : String) (store : Cache V) (v : V)
    (hparse : ext.parseObj reqBody = some [(k, v)])
    (hown : ownerOf ext peers k = selfAddr)
    (hk0 : k ≠ "") (hkh : k ≠ "health")
    (htrim : trimStartMatches '/' ("/" ++ k) = k) :
    (∀ (c : Cache V), Cache.get (Cache.set c k v) k = some v
      ∧ ∀ k2 w, k2 ≠ k →
        Cache.get (Cache.set (Cache.set c k v) k2 w) k = some v
          ∧ Cache.get (Cache.delete (Cache.set c k v) k2).1 k = some v)
    ∧ (handleRequest ext selfAddr peers "POST" "/" reqBody store).1
        = ⟨200, ext.serPair k v⟩
    ∧ (handleRequest ext selfAddr peers "GET" ("/" ++ k) ""
        (handleRequest ext selfAddr peers "POST" "/" reqBody store).2.1).1
        = ⟨200, ext.serPair k v⟩ := by
  have hurl : ("/" ++ k) ≠ "/health" := by
    intro he
    apply hkh
    rw [he] at htrim
    rw [← htrim]
    decide
  have hkey : trimStartMatches '/' ("/" ++ k) ≠ "" := by
    rw [htrim]
    exact hk0
  have hown2 : ownerOf ext peers (trimStartMatches '/' ("/" ++ k)) = selfAddr := by
    rw [htrim]
    exact hown
  have hpost := handleRequest_post_owned ext selfAddr peers reqBody store k v hparse hown
  refine ⟨fun c => ⟨by simp [Cache.get, Cache.set], fun k2 w hne => ⟨?_, ?_⟩⟩,
    by rw [hpost], ?_⟩
  · simp [Cache.get, Cache.set, Ne.symm hne]
  · rw [Cache.get_delete_ne (Cache.set c k v) k k2 (Ne.symm hne)]
    simp [Cache.get, Cache.set]
  rw [handleRequest_get_owned ext selfAddr peers ("/" ++ k) ""
    (handleRequest ext selfAddr peers "POST" "/" reqBody store).2.1 hurl hkey hown2]
  rw [hpost, htrim]
  simp [Cache.get, Cache.set]

/-- Witness for the amended C7 at the key "k" on the owning node "b". -/
theorem set_then_get_witness :
    (handleRequest sanityExt "b" ["a", "b"] "GET" "/k" ""
        (handleRequest sanityExt "b" ["a", "b"] "POST" "/" "\x7b\"k\":7\x7d"
          (Cache.new : Cache Nat)).2.1).1
      = ⟨200, sanityExt.serPair "k" 7⟩ :=
  (set_then_get sanityExt "b" ["a", "b"] "k" "\x7b\"k\":7\x7d" (Cache.new : Cache Nat) 7
    rfl (by decide) (by decide) (by decide) (by decide)).2.2

/-- C8: `Cache.delete` answers 1 exactly when the key is present (and then
removes it) and 0 exactly when it is absent; at the HTTP level an owned
DELETE /{key} after a set answers body "1", and an immediately repeated
DELETE answers body "0". -/
theorem delete_count_semantics {V : Type} (ext : Ext V) (selfAddr : String)
    (peers : List String) (k : String) (store : Cache V) (v : V)
    (hk0 : k ≠ "") (htrim : trimStartMatches '/' ("/" ++ k) = k)
    (hown : ownerOf ext peers k = selfAddr) :
    (∀ (c : Cache V), ((Cache.delete c k).2 = 1 ↔ c k ≠ none)
      ∧ ((Cache.delete c k).2 = 0 ↔ c k = none)
      ∧ (Cache.delete c k).1 k = none)
    ∧ (handleRequest ext selfAddr peers "DELETE" ("/" ++ k) ""
        (Cache.set store k v)).1 = ⟨200, "1"⟩
    ∧ (handleRequest ext selfAddr peers "DELETE" ("/" ++ k) ""
        (handleRequest ext selfAddr peers "DELETE" ("/" ++ k) ""
          (Cache.set store k v)).2.1).1 = ⟨200, "0"⟩ := by
  have hkey : trimStartMatches '/' ("/" ++ k) ≠ "" := by
    rw [htrim]
    exact hk0
  have hown2 : ownerOf ext peers (trimStartMatches '/' ("/" ++ k)) = selfAddr := by
    rw [htrim]
    exact hown
  have hdel1 := handleRequest_delete_owned ext selfAddr peers ("/" ++ k) ""
    (Cache.set store k v) hkey hown2
  have hfirst : Cache.delete (Cache.set store k v) (trimStartMatches '/' ("/" ++ k))
      = (Cache.delete (Cache.set store k v) k) := by rw [htrim]
  refine ⟨?_, ?_, ?_⟩
  · intro c
    cases hc : c k with
    | some w =>
      refine ⟨?_, ?_, ?_⟩ <;> simp [Cache.delete, hc]
    | none =>
      refine ⟨?_, ?_, ?_⟩ <;> simp [Cache.delete, hc]
  · rw [hdel1, htrim]
    have hset : Cache.set store k v k = some v := by simp [Cache.set]
    simp only [Cache.delete, hset]
    decide
  · rw [hdel1, htrim]
    have hdel2 := handleRequest_delete_owned ext selfAddr peers ("/" ++ k) ""
      (Cache.delete (Cache.set store k v) k).1 hkey hown2
    rw [hdel2, htrim]
    have hset : Cache.set store k v k = some v := by simp [Cache.set]
    have hgone : (Cache.delete (Cache.set store k v) k).1 k = none := by
      simp only [Cache.delete, hset]
      simp
    generalize hg : (Cache.delete (Cache.set store k v) k).1 = s1
    rw [hg] at hgone
    simp only [Cache.delete, hgone]
    decide

/-- Witness for C8 on the owning node "b": a DELETE after a set answers
"1" and the repeated DELETE answers "0". -/
theorem delete_count_semantics_witness :
    (handleRequest sanityExt "b" ["a", "b"] "DELETE" "/k" ""
        (Cache.set (Cache.new : Cache Nat) "k" 7)).1 = ⟨200, "1"⟩
      ∧ (handleRequest sanityExt "b" ["a", "b"] "DELETE" "/k" ""
          (handleRequest sanityExt "b" ["a", "b"] "DELETE" "/k" ""
            (Cache.set (Cache.new : Cache Nat) "k" 7)).2.1).1 = ⟨200, "0"⟩ :=
  ⟨(delete_count_semantics sanityExt "b" ["a", "b"] "k" (Cache.new : Cache Nat) 7
      (by decide) (by decide) (by decide)).2.1,
    (delete_count_semantics sanityExt "b" ["a", "b"] "k" (Cache.new : Cache Nat) 7
      (by decide) (by decide) (by decide)).2.2⟩

/-- C9: GET /health always answers 200 with the fixed health payload
(`{"status": "ok"}` followed by a newline), leaving the store unchanged
and issuing no forwarded call, for every store, peer list, hash function
and outcome oracle. -/
theorem health_endpoint {V : Type} (ext : Ext V) (selfAddr : String)
    (peers : List String) (reqBody : String) (store : Cache V) :
    handleRequest ext selfAddr peers "GET" "/health" reqBody store
      = (⟨200, healthBody⟩, store, []) :=
  handleRequest_health_eq ext selfAddr peers reqBody store

/-- C10: the health route shadows the key "health": an owned POST happily
stores `("health", v)` and answers 200 echoing it, yet GET /health on any
store always answers the fixed health payload with the store untouched and
no peer contacted, so the stored value is never observable through the
external GET interface for that key. -/
theorem health_key_shadowed {V : Type} (ext : Ext V) (selfAddr : String)
    (peers : List String) (reqBody : String) (store : Cache V) (v : V)
    (hparse : ext.parseObj reqBody = some [("health", v)])
    (hown : ownerOf ext peers "health" = selfAddr) :
    ((handleRequest ext selfAddr peers "POST" "/" reqBody store).1
        = ⟨200, ext.serPair "health" v⟩
      ∧ (handleRequest ext selfAddr peers "POST" "/" reqBody store).2.1 "health"
        = some v)
    ∧ ∀ (c : Cache V) (b2 : String),
        handleRequest ext selfAddr peers "GET" "/health" b2 c
          = (⟨200, healthBody⟩, c, []) := by
  have hpost := handleRequest_post_owned ext selfAddr peers reqBody store "health" v
    hparse hown
  refine ⟨⟨by rw [hpost], ?_⟩, fun c b2 => handleRequest_health_eq ext selfAddr peers b2 c⟩
  rw [hpost]
  simp [Cache.set]

/-- Witness for C10 on a single-node cluster: the POST stores the pair and
the subsequent GET /health answers the health payload. -/
theorem health_key_shadowed_witness :
    (handleRequest cexExtHealth "a" ["a"] "POST" "/" "\x7b\"health\":1\x7d"
        (Cache.new : Cache Nat)).2.1 "health" = some 1
      ∧ handleRequest cexExtHealth "a" ["a"] "GET" "/health" ""
          (Cache.new : Cache Nat) = (⟨200, healthBody⟩, (Cache.new : Cache Nat), []) :=
  ⟨(health_key_shadowed cexExtHealth "a" ["a"] "\x7b\"health\":1\x7d"
      (Cache.new : Cache Nat) 1 rfl (by decide)).1.2,
    (health_key_shadowed cexExtHealth "a" ["a"] "\x7b\"health\":1\x7d"
      (Cache.new : Cache Nat) 1 rfl (by decide)).2 (Cache.new : Cache Nat) ""⟩

end BabySDCS
